import Mathlib

/-!
Shallow embedding of the supervision and recovery subsystem of the dsl-rs
repository (src/src/core/mod.rs, src/src/pipeline/robust_pipeline.rs,
src/src/recovery/recovery_manager.rs, src/src/stream/stream_manager.rs,
src/src/health/health_monitor.rs), together with theorems settling the
frozen claims about it.

Modelling conventions:
* `Instant` and `Duration` are natural numbers of milliseconds; the current
  time is passed explicitly where the Rust code calls `Instant::now()`.
  `Instant::duration_since` is truncated subtraction on `Nat`, matching its
  saturating behaviour.
* `f64` arithmetic in the backoff computation is modelled exactly over `ℚ`;
  the `as u64` cast is `Rat.floor` followed by `Int.toNat` (truncation toward
  zero, saturating at zero for negative values).
* Concurrent maps (`DashMap`, `HashMap`) are association lists where insertion
  shadows older entries for lookup; sets of keys are plain lists.
* `std::thread::sleep` is recorded in the result (the delay slept, if any)
  rather than performed; log lines (`info!`, `warn!`, ...) are not modelled —
  only `HealthAlert` values actually constructed by the code are.
* The time-seeded `rand()` used for jitter is a parameter `r`; the Rust
  function produces a value in `[0, 1)`.
-/

namespace DslRs

/-- Rust `StreamState` from src/src/core/mod.rs. -/
inductive StreamState where
  | idle
  | starting
  | running
  | paused
  | recovering
  | failed
  | stopped
  deriving DecidableEq, Repr, Fintype

/-- Rust `TransitionCondition` from src/src/pipeline/robust_pipeline.rs: the
state-machine conditions are exactly these four; there is no `OnStop`. -/
inductive TransitionCondition where
  | onSuccess
  | onError
  | onTimeout
  | onRecovery
  deriving DecidableEq, Repr, Fintype

/-- Rust `StateTransition` from src/src/pipeline/robust_pipeline.rs
(`from` is a Lean keyword, hence `fromState`/`toState`). -/
structure StateTransitionRule where
  fromState : StreamState
  toState : StreamState
  condition : TransitionCondition
  deriving DecidableEq, Repr

/-- The transition table built by `StateMachine::new` in
src/src/pipeline/robust_pipeline.rs, in source order. -/
def stateMachineTransitions : List StateTransitionRule :=
  [ ⟨.idle, .starting, .onSuccess⟩,
    ⟨.starting, .running, .onSuccess⟩,
    ⟨.starting, .failed, .onError⟩,
    ⟨.running, .recovering, .onError⟩,
    ⟨.recovering, .running, .onRecovery⟩,
    ⟨.recovering, .failed, .onTimeout⟩,
    ⟨.running, .paused, .onSuccess⟩,
    ⟨.paused, .running, .onSuccess⟩ ]

/-- The first transition of the table that applies from `current` under
`cond` — the loop body of `StateMachine::transition` (conditions are compared
by tag via `std::mem::discriminant`; the Lean conditions carry no payload, so
tag equality is equality). -/
def findTransition (current : StreamState) (cond : TransitionCondition) :
    Option StreamState :=
  (stateMachineTransitions.find? fun t =>
    t.fromState == current && t.condition == cond).map (·.toState)

/-- The `states: HashMap<String, StreamState>` of `StateMachine`, as an
association list; lookup takes the first (most recent) binding. -/
def getState (states : List (String × StreamState)) (stream : String) :
    StreamState :=
  (states.lookup stream).getD .idle

/-- Rust `StateMachine::transition` from src/src/pipeline/robust_pipeline.rs:
returns the new state (if a rule applies) together with the updated state
table. -/
def transition (states : List (String × StreamState)) (stream : String)
    (cond : TransitionCondition) :
    Option StreamState × List (String × StreamState) :=
  match findTransition (getState states stream) cond with
  | some next => (some next, (stream, next) :: states)
  | none => (none, states)

/-- Rust `DslError` from src/src/core/mod.rs (the `GStreamer` variant's payload,
an opaque glib error, is modelled as its message string). -/
inductive DslError where
  | pipeline (msg : String)
  | stream (msg : String)
  | source (msg : String)
  | sink (msg : String)
  | network (msg : String)
  | fileIo (msg : String)
  | configuration (msg : String)
  | stateTransition (msg : String)
  | resourceExhaustion (msg : String)
  | recoveryFailed (msg : String)
  | gStreamer (msg : String)
  | other (msg : String)
  deriving DecidableEq, Repr

/-- Rust `RecoveryAction` from src/src/core/mod.rs. -/
inductive RecoveryAction where
  | retry
  | restart
  | replace
  | remove
  | ignore
  | escalate
  deriving DecidableEq, Repr

/-- Rust `RetryConfig` from src/src/core/mod.rs; delays in milliseconds, the
`f64` field `exponential_base` as an exact rational. -/
structure RetryConfig where
  max_attempts : Nat
  initial_delay : Nat
  max_delay : Nat
  exponential_base : ℚ
  jitter : Bool
  deriving DecidableEq, Repr

/-- Rust `RetryConfig::default` from src/src/core/mod.rs: 10 attempts, 100 ms
initial, 30 s cap, base 2.0, jitter on. -/
def RetryConfig.default : RetryConfig :=
  ⟨10, 100, 30000, 2, true⟩

/-- Rust `CircuitState` from src/src/recovery/recovery_manager.rs
(`open` is a Lean keyword, hence `open'`). -/
inductive CircuitState where
  | closed
  | open'
  | halfOpen
  deriving DecidableEq, Repr

/-- Rust `CircuitBreakerConfig` from src/src/recovery/recovery_manager.rs;
`timeout` in milliseconds. -/
structure CircuitBreakerConfig where
  failure_threshold : Nat
  success_threshold : Nat
  timeout : Nat
  half_open_attempts : Nat
  deriving DecidableEq, Repr

/-- Rust `CircuitBreaker` from src/src/recovery/recovery_manager.rs;
`last_failure_time` is an instant in milliseconds. -/
structure CircuitBreaker where
  state : CircuitState
  failure_count : Nat
  success_count : Nat
  last_failure_time : Option Nat
  config : CircuitBreakerConfig
  deriving DecidableEq, Repr

/-- Rust `CircuitBreaker::new`. -/
def CircuitBreaker.new (config : CircuitBreakerConfig) : CircuitBreaker :=
  ⟨.closed, 0, 0, none, config⟩

/-- Rust `CircuitBreaker::on_success`. -/
def CircuitBreaker.on_success (b : CircuitBreaker) : CircuitBreaker :=
  match b.state with
  | .halfOpen =>
    let s := b.success_count + 1
    if s ≥ b.config.success_threshold then
      { b with state := .closed, failure_count := 0, success_count := 0 }
    else
      { b with success_count := s }
  | .closed => { b with failure_count := 0 }
  | _ => b

/-- Rust `CircuitBreaker::on_failure`; `now` is the instant `Instant::now()`
stored into `last_failure_time`. -/
def CircuitBreaker.on_failure (b : CircuitBreaker) (now : Nat) : CircuitBreaker :=
  let b := { b with last_failure_time := some now }
  match b.state with
  | .closed =>
    let f := b.failure_count + 1
    if f ≥ b.config.failure_threshold then
      { b with state := .open', failure_count := f }
    else
      { b with failure_count := f }
  | .halfOpen =>
    { b with state := .open', failure_count := 0, success_count := 0 }
  | _ => b

/-- Rust `CircuitBreaker::should_allow_request`: returns the boolean together with
the (possibly mutated) breaker. In `Open`, the elapsed-time comparison is
`duration_since(last_failure) > timeout`, strictly. -/
def CircuitBreaker.should_allow_request (b : CircuitBreaker) (now : Nat) :
    Bool × CircuitBreaker :=
  match b.state with
  | .closed => (true, b)
  | .open' =>
    match b.last_failure_time with
    | some last =>
      if now - last > b.config.timeout then
        (true, { b with state := .halfOpen, success_count := 0 })
      else
        (false, b)
    | none => (false, b)
  | .halfOpen => (decide (b.success_count < b.config.half_open_attempts), b)

/-- The `RecoveryStrategy` trait from src/src/core/mod.rs, as a record of its
three capabilities (delays in milliseconds). -/
structure RecoveryStrategy where
  decide_action : DslError → Nat → RecoveryAction
  calculate_delay : Nat → Nat
  should_circuit_break : Nat → Bool

/-- Rust `DefaultRecoveryStrategy::new(max_attempts, base_delay)` together with its
`RecoveryStrategy` impl from src/src/recovery/recovery_manager.rs. -/
def DefaultRecoveryStrategy.new (max_attempts : Nat) (base_delay : Nat) :
    RecoveryStrategy where
  decide_action := fun _ attempt =>
    if attempt < max_attempts then .retry else .escalate
  calculate_delay := fun attempt => base_delay * attempt
  should_circuit_break := fun recent_failures => decide (recent_failures ≥ 5)

/-- The Rust `impl Clone for Box<dyn RecoveryStrategy>` from
src/src/recovery/recovery_manager.rs: the clone discards the strategy and
returns `DefaultRecoveryStrategy::new(10, Duration::from_millis(100))`. -/
def cloneBoxedStrategy (_ : RecoveryStrategy) : RecoveryStrategy :=
  DefaultRecoveryStrategy.new 10 100

/-- Rust `RecoveryPolicy` from src/src/recovery/recovery_manager.rs. -/
inductive RecoveryPolicy where
  | immediate
  | fixedDelay
  | exponential
  | custom (strategy : RecoveryStrategy)

/-- The derived `Clone` for `RecoveryPolicy`: clones each field, so a
`Custom` policy clones its boxed strategy through `cloneBoxedStrategy`. -/
def RecoveryPolicy.clone : RecoveryPolicy → RecoveryPolicy
  | .custom strategy => .custom (cloneBoxedStrategy strategy)
  | .immediate => .immediate
  | .fixedDelay => .fixedDelay
  | .exponential => .exponential

/-- Rust `FailurePattern` from src/src/recovery/recovery_manager.rs; the
`error_type: String` Debug rendering is modelled by the error value itself. -/
structure FailurePattern where
  timestamp : Nat
  error_type : DslError
  stream_name : String
  deriving DecidableEq, Repr

/-- The `while list.len() > bound: pop_front()` loop on a `VecDeque`
(front of the deque = head of the list). -/
def popFrontWhileGT (bound : Nat) : List α → List α
  | [] => []
  | x :: xs =>
    if (x :: xs).length > bound then popFrontWhileGT bound xs else x :: xs

/-- The `while list.len() >= bound: pop_front()` loop on a `VecDeque`. -/
def popFrontWhileGE (bound : Nat) : List α → List α
  | [] => []
  | x :: xs =>
    if (x :: xs).length ≥ bound then popFrontWhileGE bound xs else x :: xs

/-- Rust `RecoveryManager::record_failure`: push the new pattern at the back, then
pop from the front while the history is longer than 1000. -/
def record_failure (history : List FailurePattern) (stream_name : String)
    (error : DslError) (now : Nat) : List FailurePattern :=
  popFrontWhileGT 1000 (history ++ [⟨now, error, stream_name⟩])

/-- Rust `RecoveryManager::calculate_exponential_delay` over exact rationals:
`base * exponential_base^attempt`, clamped at `max_delay`, optionally
jittered by `clamped * 0.2 * (2*r - 1)` and clamped below at 0; the final
`as u64` cast in `Duration::from_millis(final_delay as u64)` truncates toward
zero and saturates at 0. `r` stands for the time-seeded `rand()`. -/
def calculate_exponential_delay (config : RetryConfig) (attempt : Nat)
    (r : ℚ) : Nat :=
  let base : ℚ := (config.initial_delay : ℚ)
  let exponential : ℚ := base * config.exponential_base ^ attempt
  let clamped : ℚ := min exponential (config.max_delay : ℚ)
  let final_delay : ℚ :=
    if config.jitter then
      max (clamped + clamped * (1/5) * (2 * r - 1)) 0
    else
      clamped
  final_delay.floor.toNat

/-- Rust `RecoveryManager::should_attempt_recovery`: consult the stream's circuit
breaker when present (mutating it), otherwise allow. -/
def should_attempt_recovery (breaker : Option CircuitBreaker) (now : Nat) :
    Bool × Option CircuitBreaker :=
  match breaker with
  | some b =>
    let (allowed, b) := b.should_allow_request now
    (allowed, some b)
  | none => (true, none)

/-- The `success` flag computed in `execute_recovery`:
`!matches!(action, RecoveryAction::Escalate | RecoveryAction::Remove)`. -/
def successOfAction : RecoveryAction → Bool
  | .escalate => false
  | .remove => false
  | _ => true

/-- The policy `match` in `execute_recovery` that selects the action and the
delay slept (`none` when the branch does not sleep): `Immediate` retries at
once; `FixedDelay` sleeps 500 ms then retries; `Exponential` sleeps the
backoff delay then escalates iff `attempt >= max_attempts`; `Custom` sleeps
the strategy's delay and asks it for the action. -/
def selectAction (policy : RecoveryPolicy) (retry_config : Option RetryConfig)
    (error : DslError) (attempt : Nat) (r : ℚ) :
    RecoveryAction × Option Nat :=
  match policy with
  | .immediate => (.retry, none)
  | .fixedDelay => (.retry, some 500)
  | .exponential =>
    let config := retry_config.getD RetryConfig.default
    let delay := calculate_exponential_delay config attempt r
    (if attempt ≥ config.max_attempts then .escalate else .retry, some delay)
  | .custom strategy =>
    let delay := strategy.calculate_delay attempt
    (strategy.decide_action error attempt, some delay)

/-- The circuit-breaker update at the end of `execute_recovery`: `on_success`
when `success`, `on_failure` otherwise (telemetry counters are omitted). -/
def updateBreakerAfterAction (breaker : Option CircuitBreaker)
    (success : Bool) (now : Nat) : Option CircuitBreaker :=
  match breaker with
  | some b => some (if success then b.on_success else b.on_failure now)
  | none => none

deriving instance DecidableEq for Except

/-- The observable outcome of one `execute_recovery` call: the returned
`DslResult<RecoveryAction>`, the stream's circuit breaker and the failure
history after the call, and the delay slept (if the call slept). -/
structure RecoveryOutcome where
  result : Except DslError RecoveryAction
  breaker : Option CircuitBreaker
  history : List FailurePattern
  slept : Option Nat
  deriving DecidableEq, Repr

/-- Rust `RecoveryManager::execute_recovery` for one stream, over the parts of the
manager state the call touches: its recovery policy, circuit breaker and
retry config (each absent when not registered) and the shared failure
history. If the circuit breaker refuses the request the call returns
`Ok(Escalate)` immediately; otherwise it records the failure, fetches the
policy through the derived `Clone` (`.map(|p| p.clone())`, default
`Exponential`), selects the action, and updates the breaker from the
`success` flag. -/
def executeRecovery (policy : Option RecoveryPolicy)
    (breaker : Option CircuitBreaker) (retry_config : Option RetryConfig)
    (history : List FailurePattern) (stream_name : String) (error : DslError)
    (attempt : Nat) (now : Nat) (r : ℚ) : RecoveryOutcome :=
  let (allowed, breaker) := should_attempt_recovery breaker now
  if !allowed then
    ⟨.ok .escalate, breaker, history, none⟩
  else
    let history := record_failure history stream_name error now
    let policy := (policy.map RecoveryPolicy.clone).getD .exponential
    let (action, slept) := selectAction policy retry_config error attempt r
    let success := successOfAction action
    let breaker := updateBreakerAfterAction breaker success now
    ⟨.ok action, breaker, history, slept⟩

/-- Rust `StreamHealth` from src/src/core/mod.rs (the `metrics` snapshot is
omitted: no claim under proof reads or writes it through these paths). -/
structure StreamHealth where
  state : StreamState
  last_error : Option DslError
  consecutive_errors : Nat
  recovery_attempts : Nat
  deriving DecidableEq, Repr

/-- Rust `StreamHealth::new`. -/
def StreamHealth.new : StreamHealth :=
  ⟨.idle, none, 0, 0⟩

/-- The per-stream data the watchdog tick reads in
src/src/pipeline/robust_pipeline.rs: the `StreamInfo` name, its health
record, and its `last_activity` instant (milliseconds). -/
structure WatchdogStreamInfo where
  name : String
  health : StreamHealth
  last_activity : Nat
  deriving DecidableEq, Repr

/-- Rust `AlertSeverity` from src/src/health/health_monitor.rs. -/
inductive AlertSeverity where
  | info
  | warning
  | error
  | critical
  deriving DecidableEq, Repr

/-- Rust `HealthAlert` from src/src/health/health_monitor.rs; timestamp in
milliseconds. -/
structure HealthAlert where
  timestamp : Nat
  severity : AlertSeverity
  stream : Option String
  message : String
  deriving DecidableEq, Repr

/-- The loop body of the watchdog tick in `WatchdogTimer::start`
(src/src/pipeline/robust_pipeline.rs, lines 70-82) for one stream: when
`now.duration_since(last_activity) > timeout` it increments
`consecutive_errors` and demotes `Running` to `Recovering`; otherwise it
leaves the stream untouched. -/
def watchdogCheckStream (now timeout : Nat) (info : WatchdogStreamInfo) :
    WatchdogStreamInfo :=
  if now - info.last_activity > timeout then
    { info with health :=
      { info.health with
        consecutive_errors := info.health.consecutive_errors + 1,
        state :=
          if info.health.state = .running then .recovering
          else info.health.state } }
  else
    info

/-- One full watchdog tick over the registered streams: every stream goes
through `watchdogCheckStream`, and the list of `HealthAlert` values the tick
constructs is returned alongside. The tick body builds no `HealthAlert` — on
expiry it only writes a `warn!` log line — so that list is empty. -/
def watchdogTick (now timeout : Nat) (streams : List WatchdogStreamInfo) :
    List WatchdogStreamInfo × List HealthAlert :=
  (streams.map (watchdogCheckStream now timeout), [])

/-- Rust `RobustPipeline::trigger_recovery` from src/src/pipeline/robust_pipeline.rs
over the state it touches: the state machine's state table and the
`streams` map restricted to each stream's health record. On a successful
`OnRecovery` transition the registered stream's health takes the new state
and its `recovery_attempts` is incremented; otherwise the call fails with a
`StateTransition` error and changes nothing. -/
def triggerRecovery (sm : List (String × StreamState))
    (streams : List (String × StreamHealth)) (stream_name : String) :
    Except DslError Unit × List (String × StreamState) ×
      List (String × StreamHealth) :=
  match transition sm stream_name .onRecovery with
  | (some new_state, sm') =>
    let streams' := streams.map fun p =>
      if p.1 = stream_name then
        (p.1, { p.2 with
          state := new_state,
          recovery_attempts := p.2.recovery_attempts + 1 })
      else p
    (.ok (), sm', streams')
  | (none, sm') =>
    (.error (.stateTransition
      ("Cannot recover stream " ++ stream_name ++ " from current state")),
      sm', streams)

/-- Rust `HealthMonitor::log_event_static` from src/src/health/health_monitor.rs:
pop from the front while the log holds at least 1000 alerts, then push the
new alert at the back. -/
def log_event_static (event_log : List HealthAlert) (alert : HealthAlert) :
    List HealthAlert :=
  popFrontWhileGE 1000 event_log ++ [alert]

/-- The operations that ever touch the health monitor's event log:
`log_event`/`log_event_static` insertions and `clear_alerts`. -/
inductive EventLogOp where
  | logEvent (alert : HealthAlert)
  | clearAlerts

/-- Apply one event-log operation. -/
def applyEventLogOp (event_log : List HealthAlert) :
    EventLogOp → List HealthAlert
  | .logEvent alert => log_event_static event_log alert
  | .clearAlerts => []

/-- The event log reached from the empty log (`HealthMonitor::new`) by a
sequence of operations. -/
def runEventLog (ops : List EventLogOp) : List HealthAlert :=
  ops.foldl applyEventLogOp []

/-- One recorded failure, as passed to `RecoveryManager::record_failure`. -/
structure FailureRecord where
  stream_name : String
  error : DslError
  now : Nat

/-- The failure history reached from the empty history
(`RecoveryManager::new`) by a sequence of `record_failure` calls — the only
operation that ever writes it. -/
def runFailureHistory (records : List FailureRecord) : List FailurePattern :=
  records.foldl (fun h rec => record_failure h rec.stream_name rec.error rec.now) []

/-- A registered source as `StreamManager::remove_source` observes it: the
outcome its `disconnect()` call will produce. -/
structure SourceModel where
  disconnect_result : Except DslError Unit
  deriving DecidableEq, Repr

/-- The `StreamManager` state touched by `remove_source`: the
`active_sources` map, the keys of the manager's `streams` map, and the keys
of the pipeline's `streams` map (`RobustPipeline.streams`). -/
structure StreamManagerState where
  active_sources : List (String × SourceModel)
  streams : List String
  pipeline_streams : List String
  deriving DecidableEq, Repr

/-- Rust `RobustPipeline::remove_stream`: when the stream is present its bin is
stopped and removed (the underlying framework calls are modelled as
succeeding) and the entry is deleted; otherwise a `Stream` error. -/
def removeStreamFromPipeline (pipeline_streams : List String) (name : String) :
    Except DslError (List String) :=
  if pipeline_streams.contains name then
    .ok (pipeline_streams.erase name)
  else
    .error (.stream ("Stream " ++ name ++ " not found"))

/-- Rust `StreamManager::remove_source` from src/src/stream/stream_manager.rs:
take the source out of `active_sources`, call `disconnect()` — propagating
its error with `?` — then remove the stream from the pipeline and from the
manager's `streams` map. Returns the `DslResult<()>` and the state after the
call. -/
def removeSource (st : StreamManagerState) (stream_name : String) :
    Except DslError Unit × StreamManagerState :=
  let source := st.active_sources.lookup stream_name
  let st := { st with
    active_sources := st.active_sources.filter fun p => p.1 ≠ stream_name }
  let afterDisconnect : Except DslError Unit :=
    match source with
    | some src => src.disconnect_result
    | none => .ok ()
  match afterDisconnect with
  | .error e => (.error e, st)
  | .ok _ =>
    match removeStreamFromPipeline st.pipeline_streams stream_name with
    | .error e => (.error e, st)
    | .ok pipeline' =>
      (.ok (), { st with
        pipeline_streams := pipeline',
        streams := st.streams.erase stream_name })

/-! ## Theorems settling the claims -/

/-- Helper: no rule of the state machine's table ever targets `Stopped`. -/
theorem findTransition_ne_stopped (s : StreamState) (c : TransitionCondition) :
    findTransition s c ≠ some StreamState.stopped := by
  revert s c; decide

/-- C1 (counterexample): no transition condition of the state machine behaves
as the claimed `OnStop` — there is no condition that, applied from every
state, moves the stream's state to `Stopped`. -/
theorem c1_no_onstop_counterexample :
    ¬ ∃ c : TransitionCondition, ∀ s : StreamState,
      findTransition s c = some StreamState.stopped := by
  decide

/-- C1 (amended): the `TransitionCondition` enum has no `OnStop` variant and
no rule of the state machine's transition table targets `Stopped`: for every
state table, stream, and condition, `StateMachine::transition` never moves a
stream's state to `Stopped`. -/
theorem c1_no_transition_to_stopped (states : List (String × StreamState))
    (stream : String) (cond : TransitionCondition) :
    (transition states stream cond).1 ≠ some StreamState.stopped := by
  unfold transition
  cases hf : findTransition (getState states stream) cond with
  | none => simp [hf]
  | some next =>
    intro h
    apply findTransition_ne_stopped (getState states stream) cond
    rw [hf]
    exact h

/-- C1 (witness): the amended theorem applied at a concrete state table,
stream, and condition. -/
theorem c1_no_transition_to_stopped_witness :
    (transition [("cam", StreamState.running)] "cam" .onError).1 ≠
      some StreamState.stopped :=
  c1_no_transition_to_stopped [("cam", .running)] "cam" .onError

/-- C5 (counterexample): a circuit breaker in `Open` whose last failure was at
instant 0 with a 30 s timeout, queried at exactly `now = 30000` ms (elapsed
time equal to the timeout), refuses the request and stays `Open` — the
comparison in `should_allow_request` is strict. -/
theorem c5_exact_timeout_counterexample :
    CircuitBreaker.should_allow_request
      ⟨.open', 5, 0, some 0, ⟨5, 2, 30000, 3⟩⟩ 30000 =
      (false, ⟨.open', 5, 0, some 0, ⟨5, 2, 30000, 3⟩⟩) := by
  decide

/-- Helper: in `Open` with the elapsed time at most the timeout,
`should_allow_request` refuses and leaves the breaker unchanged. -/
theorem should_allow_request_refused (b : CircuitBreaker) (t now : Nat)
    (hs : b.state = .open') (hl : b.last_failure_time = some t)
    (hto : now - t ≤ b.config.timeout) :
    b.should_allow_request now = (false, b) := by
  simp only [CircuitBreaker.should_allow_request, hs, hl]
  rw [if_neg (by omega)]

/-- C5 (amended): for a breaker in `Open` with `last_failure_time = some t`,
`should_allow_request` returns `true` and moves the breaker to `HalfOpen`
(zeroing `success_count`) exactly when `now − t` strictly exceeds the
configured timeout; when the elapsed time is at most the timeout — in
particular when it equals it — the request is refused and the breaker is
unchanged. -/
theorem c5_open_strict_timeout (b : CircuitBreaker) (t now : Nat)
    (hs : b.state = .open') (hl : b.last_failure_time = some t) :
    (b.should_allow_request now =
        (true, { b with state := .halfOpen, success_count := 0 })
      ↔ b.config.timeout < now - t)
    ∧ (now - t ≤ b.config.timeout → b.should_allow_request now = (false, b)) := by
  refine ⟨⟨?_, ?_⟩, fun hle => should_allow_request_refused b t now hs hl hle⟩
  · intro heq
    by_contra hnot
    rw [should_allow_request_refused b t now hs hl (by omega)] at heq
    exact absurd (congrArg Prod.fst heq) (by simp)
  · intro hlt
    simp only [CircuitBreaker.should_allow_request, hs, hl]
    rw [if_pos hlt]

/-- C5 (witness): the amended theorem applied to a concrete open breaker with
a 30 s timeout queried 40 s after the last failure. -/
theorem c5_open_strict_timeout_witness :
    (CircuitBreaker.state ⟨.open', 5, 0, some 0, ⟨5, 2, 30000, 3⟩⟩ = .open')
    ∧ (CircuitBreaker.should_allow_request
        ⟨.open', 5, 0, some 0, ⟨5, 2, 30000, 3⟩⟩ 40000 =
        (true, ⟨.halfOpen, 5, 0, some 0, ⟨5, 2, 30000, 3⟩⟩)) :=
  ⟨rfl,
    (c5_open_strict_timeout ⟨.open', 5, 0, some 0, ⟨5, 2, 30000, 3⟩⟩ 0 40000
      rfl rfl).1.mpr (by decide)⟩

/-- C2 (counterexample): with a concrete circuit breaker in `Open` (5
failures, 30 s timeout, last failure at instant 0) queried 1 s later — the
timeout not yet elapsed — `execute_recovery` returns `Ok(Escalate)` rather
than failing with a `RecoveryFailed` error: the result is on the `Ok` side,
the breaker, history, and sleep are untouched. -/
theorem c2_open_breaker_escalate_counterexample :
    executeRecovery (some .exponential)
      (some ⟨.open', 5, 0, some 0, ⟨5, 2, 30000, 3⟩⟩) none []
      "cam1" (.network "connection lost") 0 1000 0 =
      ⟨.ok .escalate, some ⟨.open', 5, 0, some 0, ⟨5, 2, 30000, 3⟩⟩, [],
        none⟩ := by
  decide

/-- C2 (amended): for every stream whose circuit breaker is `Open` with the
open-timeout not yet elapsed since `last_failure_time`, `execute_recovery`
fails fast by returning `Ok(Escalate)` — not an error — leaving the breaker
and the failure history unchanged, without consulting the retry policy and
without sleeping. -/
theorem c2_open_breaker_fast_escalate (policy : Option RecoveryPolicy)
    (retry_config : Option RetryConfig) (history : List FailurePattern)
    (stream_name : String) (error : DslError) (attempt : Nat)
    (b : CircuitBreaker) (t now : Nat) (r : ℚ)
    (hs : b.state = .open') (hl : b.last_failure_time = some t)
    (hto : now - t ≤ b.config.timeout) :
    executeRecovery policy (some b) retry_config history stream_name error
      attempt now r = ⟨.ok .escalate, some b, history, none⟩ := by
  have hreq : b.should_allow_request now = (false, b) :=
    should_allow_request_refused b t now hs hl hto
  simp [executeRecovery, should_attempt_recovery, hreq]

/-- C2 (witness): the amended theorem at the concrete breaker of the
counterexample. -/
theorem c2_open_breaker_fast_escalate_witness :
    (CircuitBreaker.state ⟨.open', 5, 0, some 0, ⟨5, 2, 30000, 3⟩⟩ = .open')
    ∧ executeRecovery (some .immediate)
        (some ⟨.open', 5, 0, some 0, ⟨5, 2, 30000, 3⟩⟩) none []
        "cam2" (.network "timeout") 3 2000 0 =
        ⟨.ok .escalate, some ⟨.open', 5, 0, some 0, ⟨5, 2, 30000, 3⟩⟩, [],
          none⟩ :=
  ⟨rfl,
    c2_open_breaker_fast_escalate (some .immediate) none [] "cam2"
      (.network "timeout") 3 ⟨.open', 5, 0, some 0, ⟨5, 2, 30000, 3⟩⟩ 0 2000 0
      rfl rfl (by decide)⟩

/-- C3 (counterexample): for the `Replace` action the circuit-breaker update
of `execute_recovery` invokes `on_success`, not `on_failure`: at a concrete
closed breaker with 4 accumulated failures (threshold 5) the update resets
the failure count, while `on_failure` would have tripped the breaker open —
two distinct results. -/
theorem c3_replace_on_success_counterexample :
    updateBreakerAfterAction (some ⟨.closed, 4, 0, none, ⟨5, 2, 30000, 3⟩⟩)
        (successOfAction .replace) 0 =
      some (CircuitBreaker.on_success ⟨.closed, 4, 0, none, ⟨5, 2, 30000, 3⟩⟩)
    ∧ CircuitBreaker.on_success ⟨.closed, 4, 0, none, ⟨5, 2, 30000, 3⟩⟩ ≠
      CircuitBreaker.on_failure ⟨.closed, 4, 0, none, ⟨5, 2, 30000, 3⟩⟩ 0 := by
  decide

/-- C3 (amended): in `execute_recovery`, after the action is selected, the
stream's circuit breaker receives `on_success` exactly when the action is not
`Escalate` and not `Remove` — that is, for `Retry`, `Ignore`, `Restart`, and
also for `Replace` — and receives `on_failure` only for `Escalate` and
`Remove`. -/
theorem c3_breaker_update_rule (a : RecoveryAction) (b : CircuitBreaker)
    (now : Nat) :
    updateBreakerAfterAction (some b) (successOfAction a) now =
      some (if a = .escalate ∨ a = .remove then b.on_failure now
            else b.on_success) := by
  cases a <;> simp [updateBreakerAfterAction, successOfAction]

/-- C4 (counterexample): for a registered stream `"s"` whose owned source's
`disconnect()` returns a `Network` error, `remove_source` does not succeed:
it returns that error, and the stream's entries in the stream map and the
pipeline are not deleted (only the source-map entry, taken before the
disconnect call, is gone). -/
theorem c4_disconnect_error_counterexample :
    removeSource ⟨[("s", ⟨.error (.network "connection lost")⟩)], ["s"], ["s"]⟩
        "s" =
      (.error (.network "connection lost"), ⟨[], ["s"], ["s"]⟩) := by
  decide

/-- C4 (amended): `remove_source` propagates a failing `disconnect()` with
the `?` operator: when the registered source's disconnect returns an error
`e`, the call returns `Err(e)` after deleting only the source-map entry,
leaving the stream map and the pipeline untouched; only when disconnect
succeeds (or no source is registered) does the call, for a stream present in
the pipeline, return `Ok` and delete the stream's entries everywhere. -/
theorem c4_remove_source_propagates (st : StreamManagerState) (name : String) :
    (∀ src e, st.active_sources.lookup name = some src →
      src.disconnect_result = .error e →
      removeSource st name =
        (.error e,
          { st with active_sources :=
              st.active_sources.filter fun p => p.1 ≠ name }))
    ∧ ((∀ src, st.active_sources.lookup name = some src →
          src.disconnect_result = .ok ()) →
        st.pipeline_streams.contains name = true →
        removeSource st name =
          (.ok (),
            ⟨st.active_sources.filter fun p => p.1 ≠ name,
              st.streams.erase name, st.pipeline_streams.erase name⟩)) := by
  constructor
  · intro src e hlook herr
    simp [removeSource, hlook, herr]
  · intro hok hmem
    have hmem' : name ∈ st.pipeline_streams := by
      simpa using hmem
    unfold removeSource
    cases hlook : st.active_sources.lookup name with
    | none => simp [removeStreamFromPipeline, hmem']
    | some src =>
      have := hok src hlook
      simp [this, removeStreamFromPipeline, hmem']

/-- C4 (witness): the amended theorem's error branch at a concrete state with
one registered stream whose disconnect fails. -/
theorem c4_remove_source_propagates_witness :
    (List.lookup "s"
        [("s", (⟨.error (.fileIo "gone")⟩ : SourceModel))] =
      some ⟨.error (.fileIo "gone")⟩)
    ∧ removeSource ⟨[("s", ⟨.error (.fileIo "gone")⟩)], ["s"], ["s"]⟩ "s" =
        (.error (.fileIo "gone"), ⟨[], ["s"], ["s"]⟩) :=
  ⟨by decide,
    by
      have h :=
        (c4_remove_source_propagates
          ⟨[("s", ⟨.error (.fileIo "gone")⟩)], ["s"], ["s"]⟩ "s").1
          ⟨.error (.fileIo "gone")⟩ (.fileIo "gone") (by decide) rfl
      simpa using h⟩

/-- Helper: the executable `Rat.floor` agrees with the floor of the
`FloorRing` instance on `ℚ`. -/
theorem rat_floor_eq_int_floor (q : ℚ) : q.floor = ⌊q⌋ := by
  rw [Rat.floor_def', Rat.floor_def]

/-- Helper: the jitter-free branch of `calculate_exponential_delay` in
closed form. -/
theorem calculate_no_jitter (config : RetryConfig) (k : Nat) (r : ℚ)
    (hjit : config.jitter = false) :
    calculate_exponential_delay config k r =
      (⌊min ((config.initial_delay : ℚ) * config.exponential_base ^ k)
          (config.max_delay : ℚ)⌋).toNat := by
  simp only [calculate_exponential_delay, hjit, Bool.false_eq_true, if_false,
    rat_floor_eq_int_floor]

/-- Helper: the jitter branch of `calculate_exponential_delay` in closed
form. -/
theorem calculate_jitter (config : RetryConfig) (k : Nat) (r : ℚ)
    (hjit : config.jitter = true) :
    calculate_exponential_delay config k r =
      (⌊max ((min ((config.initial_delay : ℚ) * config.exponential_base ^ k)
            (config.max_delay : ℚ)) +
          (min ((config.initial_delay : ℚ) * config.exponential_base ^ k)
            (config.max_delay : ℚ)) * (1/5) * (2 * r - 1)) 0⌋).toNat := by
  simp only [calculate_exponential_delay, hjit, if_true,
    rat_floor_eq_int_floor]

/-- Helper: evaluating `⌊q⌋.toNat` from rational bounds. -/
theorem floor_toNat_eval (q : ℚ) (v : ℕ) (h1 : (v : ℚ) ≤ q)
    (h2 : q < v + 1) : (⌊q⌋).toNat = v := by
  have h : ⌊q⌋ = (v : ℤ) :=
    Int.floor_eq_iff.mpr ⟨by exact_mod_cast h1, by exact_mod_cast h2⟩
  rw [h, Int.toNat_natCast]

/-- C6 (counterexample): the delay is an integer number of milliseconds, so
it cannot equal `min(initial · base^k, max)` for every config: with
`initial = 1 ms`, `base = 3/2`, attempt 1 and jitter off, the code yields
1 ms while the formula gives 3/2 ms. And with jitter on the claimed bound
`0 ≤ delay ≤ 1.2 · min(initial · base^k, max)` fails for a negative base:
with `initial = 100 ms`, `base = −2`, attempt 1, `r = 1/2`, the delay is 0 ms
but `1.2 · min(100 · (−2), 10000) = −240 < 0`. -/
theorem c6_backoff_counterexample :
    (calculate_exponential_delay ⟨5, 1, 10000, 3/2, false⟩ 1 0 = 1
      ∧ ¬ ((calculate_exponential_delay ⟨5, 1, 10000, 3/2, false⟩ 1 0 : ℚ) =
            min ((1 : ℚ) * (3/2 : ℚ) ^ 1) (10000 : ℚ)))
    ∧ (calculate_exponential_delay ⟨5, 100, 10000, -2, true⟩ 1 (1/2) = 0
      ∧ ¬ ((calculate_exponential_delay ⟨5, 100, 10000, -2, true⟩ 1 (1/2) : ℚ) ≤
            6/5 * min ((100 : ℚ) * (-2 : ℚ) ^ 1) (10000 : ℚ))) := by
  have h1 : calculate_exponential_delay ⟨5, 1, 10000, 3/2, false⟩ 1 0 = 1 := by
    rw [calculate_no_jitter _ _ _ rfl]
    apply floor_toNat_eval <;> push_cast <;> norm_num [min_def]
  have h2 : calculate_exponential_delay ⟨5, 100, 10000, -2, true⟩ 1 (1/2) = 0 := by
    rw [calculate_jitter _ _ _ rfl]
    apply floor_toNat_eval <;> push_cast <;> norm_num [min_def, max_def]
  refine ⟨⟨h1, ?_⟩, h2, ?_⟩
  · rw [h1]
    push_cast
    norm_num [min_def]
  · rw [h2]
    push_cast
    norm_num [min_def]

/-- C6 (amended): with jitter disabled the computed delay is
`min(initial · base^k, max)` truncated to whole milliseconds
(`⌊·⌋` then clamped at 0 by the `u64` cast); in particular the example series
`initial = 100 ms, max = 10 s, base = 2` gives 100, 200, 400, 800 ms at
attempts 0–3 and is capped at 10 s by attempt 10. With jitter enabled, for
the code's `rand` value `r ∈ [0, 1]` and a nonnegative `exponential_base`,
the delay satisfies `0 ≤ delay ≤ 1.2 · min(initial · base^k, max)`. -/
theorem c6_exponential_backoff :
    (∀ (config : RetryConfig) (k : Nat) (r : ℚ), config.jitter = false →
      calculate_exponential_delay config k r =
        (⌊min ((config.initial_delay : ℚ) * config.exponential_base ^ k)
            (config.max_delay : ℚ)⌋).toNat)
    ∧ (calculate_exponential_delay ⟨5, 100, 10000, 2, false⟩ 0 0 = 100
      ∧ calculate_exponential_delay ⟨5, 100, 10000, 2, false⟩ 1 0 = 200
      ∧ calculate_exponential_delay ⟨5, 100, 10000, 2, false⟩ 2 0 = 400
      ∧ calculate_exponential_delay ⟨5, 100, 10000, 2, false⟩ 3 0 = 800
      ∧ calculate_exponential_delay ⟨5, 100, 10000, 2, false⟩ 10 0 = 10000)
    ∧ (∀ (config : RetryConfig) (k : Nat) (r : ℚ), config.jitter = true →
        0 ≤ r → r ≤ 1 → 0 ≤ config.exponential_base →
        (calculate_exponential_delay config k r : ℚ) ≤
          6/5 * min ((config.initial_delay : ℚ) * config.exponential_base ^ k)
            (config.max_delay : ℚ)) := by
  have ex : ∀ k v : Nat,
      (v : ℚ) ≤ min ((100 : ℚ) * 2 ^ k) 10000 →
      min ((100 : ℚ) * 2 ^ k) 10000 < v + 1 →
      calculate_exponential_delay ⟨5, 100, 10000, 2, false⟩ k 0 = v := by
    intro k v hle hlt
    rw [calculate_no_jitter _ _ _ rfl]
    apply floor_toNat_eval <;> push_cast <;> assumption
  refine ⟨?_,
    ⟨ex 0 100 (by norm_num [min_def]) (by norm_num [min_def]),
      ex 1 200 (by norm_num [min_def]) (by norm_num [min_def]),
      ex 2 400 (by norm_num [min_def]) (by norm_num [min_def]),
      ex 3 800 (by norm_num [min_def]) (by norm_num [min_def]),
      ex 10 10000 (by norm_num [min_def]) (by norm_num [min_def])⟩, ?_⟩
  · intro config k r hjit
    exact calculate_no_jitter config k r hjit
  · intro config k r hjit hr0 hr1 hbase
    simp only [calculate_exponential_delay, hjit, if_true]
    set c := min ((config.initial_delay : ℚ) * config.exponential_base ^ k)
      ((config.max_delay : ℚ)) with hc_def
    have hc : 0 ≤ c :=
      le_min (mul_nonneg (Nat.cast_nonneg _) (pow_nonneg hbase k))
        (Nat.cast_nonneg _)
    set f := max (c + c * (1/5) * (2 * r - 1)) 0 with hf_def
    have hf0 : (0 : ℚ) ≤ f := le_max_right _ _
    have hfle : f ≤ 6/5 * c := by
      apply max_le
      · nlinarith [mul_nonneg hc (sub_nonneg.mpr hr1)]
      · nlinarith [hc]
    have hfloor0 : 0 ≤ f.floor := by
      rw [rat_floor_eq_int_floor]
      exact Int.floor_nonneg.mpr hf0
    calc ((f.floor.toNat : ℚ)) = ((f.floor : ℤ) : ℚ) := by
          exact_mod_cast congrArg (fun z : ℤ => (z : ℚ))
            (Int.toNat_of_nonneg hfloor0)
      _ ≤ f := by
          rw [rat_floor_eq_int_floor]
          exact Int.floor_le f
      _ ≤ 6/5 * c := hfle

/-- C6 (witness): the amended theorem applied at concrete inputs — the
jitter-free closed form at `initial = 7 ms, base = 3`, attempt 2, and the
jitter bound at the default retry config (jitter on, base 2) with
`r = 1/2`. -/
theorem c6_exponential_backoff_witness :
    calculate_exponential_delay ⟨5, 7, 10000, 3, false⟩ 2 0 = 63
    ∧ (calculate_exponential_delay RetryConfig.default 1 (1/2) : ℚ) ≤
        6/5 * min ((100 : ℚ) * (2 : ℚ) ^ 1) ((30000 : ℚ)) :=
  ⟨by
    rw [c6_exponential_backoff.1 ⟨5, 7, 10000, 3, false⟩ 2 0 rfl]
    apply floor_toNat_eval <;> push_cast <;> norm_num [min_def],
    c6_exponential_backoff.2.2 RetryConfig.default 1 (1/2) rfl (by norm_num)
      (by norm_num) (by norm_num [RetryConfig.default])⟩

/-- Helper: the only `OnRecovery` rule in the table is
`Recovering → Running`. -/
theorem findTransition_onRecovery (s : StreamState) :
    findTransition s .onRecovery =
      if s = .recovering then some .running else none := by
  revert s; decide

/-- Helper: looking up `name` after updating the entry at `name` applies the
update under the lookup. -/
theorem lookup_map_update {β : Type} (l : List (String × β)) (name : String)
    (g : β → β) :
    (l.map fun p => if p.1 = name then (p.1, g p.2) else p).lookup name =
      (l.lookup name).map g := by
  induction l with
  | nil => rfl
  | cons hd tl ih =>
    obtain ⟨k, v⟩ := hd
    by_cases h : k = name
    · subst h
      have hif : (if ((k, v) : String × β).1 = k then ((k, v).1, g (k, v).2)
          else (k, v)) = (k, g v) := if_pos rfl
      rw [List.map_cons, hif]
      simp [List.lookup]
    · have hif : (if ((k, v) : String × β).1 = name then ((k, v).1, g (k, v).2)
          else (k, v)) = (k, v) := if_neg h
      rw [List.map_cons, hif]
      simp [List.lookup, beq_eq_false_iff_ne.mpr (Ne.symm h), ih]

/-- C7: `trigger_recovery` fails with a `StateTransition` error exactly when
the stream's current lifecycle state is not `Recovering` (no legal
`OnRecovery` transition), leaving the state table and health records
unchanged; from `Recovering` it succeeds, the state machine moves the stream
to `Running`, and a registered stream's health record takes state `Running`
with its `recovery_attempts` counter incremented. -/
theorem c7_trigger_recovery (sm : List (String × StreamState))
    (streams : List (String × StreamHealth)) (name : String) :
    (getState sm name ≠ .recovering →
      triggerRecovery sm streams name =
        (.error (.stateTransition
          ("Cannot recover stream " ++ name ++ " from current state")),
          sm, streams))
    ∧ (getState sm name = .recovering →
        (triggerRecovery sm streams name).1 = .ok ()
        ∧ getState (triggerRecovery sm streams name).2.1 name = .running
        ∧ ∀ h, streams.lookup name = some h →
            (triggerRecovery sm streams name).2.2.lookup name =
              some { h with
                state := .running,
                recovery_attempts := h.recovery_attempts + 1 }) := by
  constructor
  · intro hne
    unfold triggerRecovery transition
    rw [findTransition_onRecovery, if_neg hne]
  · intro hrec
    unfold triggerRecovery transition
    rw [findTransition_onRecovery, if_pos hrec]
    refine ⟨rfl, ?_, ?_⟩
    · simp [getState, List.lookup]
    · intro h hlook
      rw [lookup_map_update streams name
        (fun x => { x with
          state := .running,
          recovery_attempts := x.recovery_attempts + 1 }), hlook]
      rfl

/-- C7 (witness): a stream `"cam"` currently `Recovering` with 3 prior
recovery attempts: `trigger_recovery` succeeds, leaves the state machine at
`Running`, and bumps the counter to 4. -/
theorem c7_trigger_recovery_witness :
    getState [("cam", StreamState.recovering)] "cam" = .recovering
    ∧ (triggerRecovery [("cam", .recovering)]
        [("cam", ⟨.recovering, none, 1, 3⟩)] "cam").1 = .ok ()
    ∧ (triggerRecovery [("cam", .recovering)]
        [("cam", ⟨.recovering, none, 1, 3⟩)] "cam").2.2.lookup "cam" =
        some ⟨.running, none, 1, 4⟩ :=
  have h := (c7_trigger_recovery [("cam", .recovering)]
    [("cam", ⟨.recovering, none, 1, 3⟩)] "cam").2 rfl
  ⟨rfl, h.1, h.2.2 ⟨.recovering, none, 1, 3⟩ rfl⟩

/-- C8 (counterexample): on a watchdog tick at `now = 2000` ms with a 1 s
timeout, a `Running` stream last active at instant 0 is expired: it is
demoted to `Recovering` with `consecutive_errors` bumped — yet the tick emits
no alert at all (in particular no `Critical` one): the tick's alert list is
empty. -/
theorem c8_no_alert_counterexample :
    watchdogTick 2000 1000 [⟨"cam", ⟨.running, none, 0, 0⟩, 0⟩] =
      ([⟨"cam", ⟨.recovering, none, 1, 0⟩, 0⟩], ([] : List HealthAlert)) := by
  decide

/-- C8 (amended): on every watchdog tick, each stream whose `last_activity`
lies within the timeout is left completely unmodified; each stream whose
`last_activity` is older than the timeout has its `consecutive_errors`
incremented and its state demoted from `Running` to `Recovering` (other
states are kept) — but no alert is emitted: the tick only writes a
warning-level log line and constructs no `HealthAlert`. -/
theorem c8_watchdog_tick (now timeout : Nat) (info : WatchdogStreamInfo) :
    (now - info.last_activity ≤ timeout →
      watchdogCheckStream now timeout info = info)
    ∧ (timeout < now - info.last_activity →
        watchdogCheckStream now timeout info =
          { info with health :=
            { info.health with
              consecutive_errors := info.health.consecutive_errors + 1,
              state :=
                if info.health.state = .running then .recovering
                else info.health.state } })
    ∧ ∀ streams : List WatchdogStreamInfo,
        watchdogTick now timeout streams =
          (streams.map (watchdogCheckStream now timeout), []) := by
  refine ⟨?_, ?_, fun _ => rfl⟩
  · intro hin
    unfold watchdogCheckStream
    rw [if_neg (by omega)]
  · intro hout
    unfold watchdogCheckStream
    rw [if_pos hout]

/-- C8 (witness): the amended theorem at a concrete expired `Running` stream
and tick instant. -/
theorem c8_watchdog_tick_witness :
    1000 < 2500 - 0
    ∧ watchdogCheckStream 2500 1000 ⟨"cam", ⟨.running, none, 2, 0⟩, 0⟩ =
        ⟨"cam", ⟨.recovering, none, 3, 0⟩, 0⟩ :=
  ⟨by decide,
    (c8_watchdog_tick 2500 1000 ⟨"cam", ⟨.running, none, 2, 0⟩, 0⟩).2.1
      (by decide)⟩

/-- Helper: popping from the front while strictly longer than `n` leaves at
most `n` elements. -/
theorem popFrontWhileGT_length_le {α : Type} (n : Nat) (l : List α) :
    (popFrontWhileGT n l).length ≤ n := by
  induction l with
  | nil => simp [popFrontWhileGT]
  | cons x xs ih =>
    unfold popFrontWhileGT
    by_cases h : (x :: xs).length > n
    · rw [if_pos h]
      exact ih
    · rw [if_neg h]
      omega

/-- Helper: popping from the front while at least `n + 1` elements remain
leaves at most `n`. -/
theorem popFrontWhileGE_length_le {α : Type} (n : Nat) (l : List α) :
    (popFrontWhileGE (n + 1) l).length ≤ n := by
  induction l with
  | nil => simp [popFrontWhileGE]
  | cons x xs ih =>
    unfold popFrontWhileGE
    by_cases h : (x :: xs).length ≥ n + 1
    · rw [if_pos h]
      exact ih
    · rw [if_neg h]
      omega

/-- Helper: one step of the GT pop loop on a too-long list. -/
theorem popFrontWhileGT_cons_of_gt {α : Type} (n : Nat) (x : α)
    (xs : List α) (h : (x :: xs).length > n) :
    popFrontWhileGT n (x :: xs) = popFrontWhileGT n xs := by
  unfold popFrontWhileGT
  rw [if_pos h]
  cases xs <;> simp [popFrontWhileGT]

/-- Helper: one step of the GE pop loop on a long-enough list. -/
theorem popFrontWhileGE_cons_of_ge {α : Type} (n : Nat) (x : α)
    (xs : List α) (h : (x :: xs).length ≥ n) :
    popFrontWhileGE n (x :: xs) = popFrontWhileGE n xs := by
  unfold popFrontWhileGE
  rw [if_pos h]
  cases xs <;> simp [popFrontWhileGE]

/-- Helper: the GT pop loop does nothing on a list of length at most `n`. -/
theorem popFrontWhileGT_eq_self {α : Type} (n : Nat) (l : List α)
    (h : l.length ≤ n) : popFrontWhileGT n l = l := by
  cases l with
  | nil => rfl
  | cons x xs =>
    unfold popFrontWhileGT
    rw [if_neg (by omega)]

/-- Helper: the GE pop loop does nothing on a list shorter than `n`. -/
theorem popFrontWhileGE_eq_self {α : Type} (n : Nat) (l : List α)
    (h : l.length < n) : popFrontWhileGE n l = l := by
  cases l with
  | nil => rfl
  | cons x xs =>
    unfold popFrontWhileGE
    rw [if_neg (by omega)]

/-- Helper: every `log_event_static` insertion leaves at most 1000 alerts. -/
theorem log_event_static_length_le (log : List HealthAlert)
    (alert : HealthAlert) : (log_event_static log alert).length ≤ 1000 := by
  unfold log_event_static
  rw [List.length_append]
  have := popFrontWhileGE_length_le 999 log
  simpa using this

/-- Helper: every `record_failure` call leaves at most 1000 patterns. -/
theorem record_failure_length_le (history : List FailurePattern)
    (name : String) (error : DslError) (now : Nat) :
    (record_failure history name error now).length ≤ 1000 :=
  popFrontWhileGT_length_le 1000 _

/-- C9: in every reachable state the health monitor's event log holds at most
1000 alerts and the recovery manager's failure history holds at most 1000
patterns (any sequence of operations from the empty initial buffers keeps
both bounds); and when a buffer is exactly full, inserting a new entry evicts
the oldest one: the buffer becomes its tail followed by the new entry. -/
theorem c9_bounded_ring_buffers :
    (∀ ops : List EventLogOp, (runEventLog ops).length ≤ 1000)
    ∧ (∀ records : List FailureRecord,
        (runFailureHistory records).length ≤ 1000)
    ∧ (∀ (log : List HealthAlert) (alert : HealthAlert),
        log.length = 1000 →
        log_event_static log alert = log.tail ++ [alert])
    ∧ (∀ (history : List FailurePattern) (name : String) (error : DslError)
        (now : Nat), history.length = 1000 →
        record_failure history name error now =
          history.tail ++ [⟨now, error, name⟩]) := by
  refine ⟨?_, ?_, ?_, ?_⟩
  · intro ops
    have key : ∀ (ops : List EventLogOp) (log : List HealthAlert),
        log.length ≤ 1000 →
        (ops.foldl applyEventLogOp log).length ≤ 1000 := by
      intro ops
      induction ops with
      | nil => intro log h; exact h
      | cons op rest ih =>
        intro log h
        cases op with
        | logEvent alert =>
          exact ih _ (log_event_static_length_le log alert)
        | clearAlerts => exact ih _ (by simp [applyEventLogOp])
    exact key ops [] (by decide)
  · intro records
    have key : ∀ (records : List FailureRecord) (h : List FailurePattern),
        h.length ≤ 1000 →
        (records.foldl
          (fun h rec => record_failure h rec.stream_name rec.error rec.now)
          h).length ≤ 1000 := by
      intro records
      induction records with
      | nil => intro h hh; exact hh
      | cons rec rest ih =>
        intro h hh
        exact ih _ (record_failure_length_le h rec.stream_name rec.error rec.now)
    exact key records [] (by decide)
  · intro log alert hlen
    cases log with
    | nil => simp at hlen
    | cons x xs =>
      have hxs : xs.length = 999 := by
        simp at hlen
        omega
      unfold log_event_static
      rw [popFrontWhileGE_cons_of_ge 1000 x xs (by simp [hxs]),
        popFrontWhileGE_eq_self 1000 xs (by omega)]
      rfl
  · intro history name error now hlen
    cases history with
    | nil => simp at hlen
    | cons x xs =>
      have hxs : xs.length = 999 := by
        simp at hlen
        omega
      unfold record_failure
      rw [List.cons_append]
      generalize (⟨now, error, name⟩ : FailurePattern) = p
      rw [popFrontWhileGT_cons_of_gt 1000 x (xs ++ [p]) (by simp [hxs]),
        popFrontWhileGT_eq_self 1000 (xs ++ [p]) (by simp [hxs])]
      rfl

/-- C9 (witness): the eviction clauses of the theorem applied to concretely
full buffers of 1000 entries, and the bound applied to a one-insertion
run. -/
theorem c9_bounded_ring_buffers_witness :
    (List.replicate 1000 (⟨0, .info, none, "boot"⟩ : HealthAlert)).length = 1000
    ∧ log_event_static
        (List.replicate 1000 (⟨0, .info, none, "boot"⟩ : HealthAlert))
        ⟨5, .critical, some "cam", "stall"⟩ =
        (List.replicate 1000 (⟨0, .info, none, "boot"⟩ : HealthAlert)).tail ++
          [⟨5, .critical, some "cam", "stall"⟩]
    ∧ record_failure
        (List.replicate 1000 (⟨0, .network "x", "cam"⟩ : FailurePattern))
        "cam" (.network "y") 7 =
        (List.replicate 1000 (⟨0, .network "x", "cam"⟩ : FailurePattern)).tail
          ++ [⟨7, .network "y", "cam"⟩]
    ∧ (runEventLog [.logEvent ⟨1, .warning, none, "w"⟩]).length ≤ 1000 :=
  ⟨by rw [List.length_replicate],
    c9_bounded_ring_buffers.2.2.1 _ ⟨5, .critical, some "cam", "stall"⟩
      (by rw [List.length_replicate]),
    c9_bounded_ring_buffers.2.2.2 _ "cam" (.network "y") 7
      (by rw [List.length_replicate]),
    c9_bounded_ring_buffers.1 [.logEvent ⟨1, .warning, none, "w"⟩]⟩

/-- C10: for every strategy `s`, `execute_recovery` on a stream registered
with policy `Custom(s)` behaves identically — same returned action, same
slept delay, same breaker and history updates — to the same stream
registered with `Custom(DefaultRecoveryStrategy::new(10, 100 ms))`: fetching
the policy clones the boxed trait object, and the `Clone` impl substitutes
the default strategy, so the action and delay never come from `s`. -/
theorem c10_custom_policy_ignored (s : RecoveryStrategy)
    (breaker : Option CircuitBreaker) (retry_config : Option RetryConfig)
    (history : List FailurePattern) (stream_name : String) (error : DslError)
    (attempt : Nat) (now : Nat) (r : ℚ) :
    executeRecovery (some (.custom s)) breaker retry_config history
        stream_name error attempt now r =
      executeRecovery (some (.custom (DefaultRecoveryStrategy.new 10 100)))
        breaker retry_config history stream_name error attempt now r := rfl

end DslRs
